import Mathlib

/-!
Verification of the aggregation algorithm of `resourceTimeCalculator.py`
(an AWS CloudFormation "resource time calculator").

The embedding models:
  * `get_all_events`  — the paginated event fetcher (the boto3 client is
    modelled as a response function from an optional continuation token to
    a page of events plus an optional next token; the unbounded `while True`
    loop is given explicit fuel);
  * `calculate_time_difference` — timestamp subtraction (datetimes are
    modelled as integer seconds; a Python `None` operand raises `TypeError`,
    modelled in the `Except` monad);
  * `find_resources_with_longest_time` — the per-event reduction, duration
    computation and descending sort;
  * `analyze_events` — the operation validation and report rendering
    (modelled as the list of printed lines).

Python dicts preserve insertion order, so the `resource_times` mapping is
modelled as an association list where a fresh key is appended at the end and
an update keeps the key in place.  Python exceptions (`ValueError`,
`TypeError`, `KeyError`) are modelled as `Except.error` with a message
identifying the exception.
-/

/-- Status constant `CREATE_IN_PROGRESS` from the source. -/
def CREATE_IN_PROGRESS : String := "CREATE_IN_PROGRESS"

/-- Status constant `CREATE_COMPLETE` from the source. -/
def CREATE_COMPLETE : String := "CREATE_COMPLETE"

/-- Status constant `DELETE_IN_PROGRESS` from the source. -/
def DELETE_IN_PROGRESS : String := "DELETE_IN_PROGRESS"

/-- Status constant `DELETE_COMPLETE` from the source. -/
def DELETE_COMPLETE : String := "DELETE_COMPLETE"

/-- A CloudFormation stack event, as consumed by the analyzer: the three
fields the code reads (`LogicalResourceId`, `ResourceStatus`, `Timestamp`).
Timestamps are modelled as integer seconds. -/
structure StackEvent where
  logicalResourceId : String
  resourceStatus : String
  timestamp : Int

/-- The per-resource record built by the loop: a Python dict that always has
the two keys `start_time` and `end_time`, each possibly bound to `None`. -/
structure ResourceTimes where
  start_time : Option Int
  end_time : Option Int

/-- Message of the `ValueError` raised at line 84 of the source (the Python
message quotes the words create and delete). -/
def invalidOperationMsg : String := "Invalid operation. Use create or delete."

/-- Message of the `TypeError` Python raises when `<` is applied to a
datetime and `None` (line 87 when the resource id is absent). -/
def typeErrorLtMsg : String := "TypeError: < not supported between datetime.datetime and NoneType"

/-- Message of the `TypeError` Python raises when `-` is applied with a
`None` operand (line 58 via line 105). -/
def typeErrorSubMsg : String := "TypeError: unsupported operand type for - with NoneType"

/-- Message of a Python `KeyError` (subscript assignment to a missing key). -/
def keyErrorMsg : String := "KeyError"

/-- Python `<` on two optional datetimes: defined when both are present,
`TypeError` when either side is `None`. -/
def pyLt (a b : Option Int) : Except String Bool :=
  match a, b with
  | some x, some y => Except.ok (decide (x < y))
  | _, _ => Except.error typeErrorLtMsg

/-- Lookup in the insertion-ordered mapping (`resource_times.get(rid)` /
`rid in resource_times`). -/
def lookupTimes : List (String × ResourceTimes) → String → Option ResourceTimes
  | [], _ => none
  | (k, v) :: rest, rid => if k == rid then some v else lookupTimes rest rid

/-- Python `resource_id in resource_times`. -/
def containsKey (rt : List (String × ResourceTimes)) (rid : String) : Bool :=
  (lookupTimes rt rid).isSome

/-- Python `resource_times[resource_id]["start_time"] = ts` (line 88):
updates the record in place, `KeyError` if the key is absent. -/
def setStart : List (String × ResourceTimes) → String → Int →
    Except String (List (String × ResourceTimes))
  | [], _, _ => Except.error keyErrorMsg
  | (k, v) :: rest, rid, ts =>
    if k == rid then Except.ok ((k, { v with start_time := some ts }) :: rest)
    else do
      let rest2 ← setStart rest rid ts
      Except.ok ((k, v) :: rest2)

/-- Python `resource_times[resource_id]["end_time"] = ts` (line 97). -/
def setEnd : List (String × ResourceTimes) → String → Int →
    Except String (List (String × ResourceTimes))
  | [], _, _ => Except.error keyErrorMsg
  | (k, v) :: rest, rid, ts =>
    if k == rid then Except.ok ((k, { v with end_time := some ts }) :: rest)
    else do
      let rest2 ← setEnd rest rid ts
      Except.ok ((k, v) :: rest2)

/-- Python `resource_times.get(resource_id, {}).get("start_time")` from
line 87: the record's `start_time` when the id is present (possibly `None`),
`None` when absent (an empty dict has no `start_time` key). -/
def startTimeOfGet (rt : List (String × ResourceTimes)) (rid : String) : Option Int :=
  match lookupTimes rt rid with
  | some times => times.start_time
  | none => none

/-- The condition of line 87,
`resource_id in resource_times or event.get("Timestamp") < resource_times.get(resource_id, {}).get("start_time")`,
with Python's short-circuiting `or`: when the id is already present the
comparison is never evaluated; when it is absent, `<` compares the timestamp
against `None` and raises `TypeError`. -/
def inProgressCondition (rt : List (String × ResourceTimes)) (rid : String) (ts : Int) :
    Except String Bool :=
  if containsKey rt rid then Except.ok true
  else pyLt (some ts) (startTimeOfGet rt rid)

/-- One iteration of the `for event in events` loop of
`find_resources_with_longest_time` (lines 74-102), including the per-event
operation validation of lines 77-84. -/
def processEvent (operation : String) (resource_times : List (String × ResourceTimes))
    (event : StackEvent) : Except String (List (String × ResourceTimes)) := do
  let resource_id := event.logicalResourceId
  let statuses ←
    (if operation == "create" then Except.ok (CREATE_IN_PROGRESS, CREATE_COMPLETE)
     else if operation == "delete" then Except.ok (DELETE_IN_PROGRESS, DELETE_COMPLETE)
     else Except.error invalidOperationMsg : Except String (String × String))
  if event.resourceStatus == statuses.1 then
    let cond ← inProgressCondition resource_times resource_id event.timestamp
    if cond then
      setStart resource_times resource_id event.timestamp
    else if !(containsKey resource_times resource_id) then
      Except.ok (resource_times ++ [(resource_id, ⟨some event.timestamp, none⟩)])
    else
      Except.ok resource_times
  else if event.resourceStatus == statuses.2 then
    if containsKey resource_times resource_id then
      setEnd resource_times resource_id event.timestamp
    else if !(containsKey resource_times resource_id) then
      Except.ok (resource_times ++ [(resource_id, ⟨none, some event.timestamp⟩)])
    else
      Except.ok resource_times
  else
    Except.ok resource_times

/-- The whole event loop of `find_resources_with_longest_time`: fold
`processEvent` over the events starting from the empty mapping. -/
def buildResourceTimes (events : List StackEvent) (operation : String) :
    Except String (List (String × ResourceTimes)) :=
  events.foldlM (processEvent operation) []

/-- `datetime.min` (0001-01-01 00:00:00) as seconds relative to the epoch. -/
def DATETIME_MIN : Int := -62135596800

/-- Python `d.get(key, dflt)`: the stored value when the key is present
(even when that value is `None`), the default only when the key is absent.
In `find_resources_with_longest_time` both keys are always present, so the
call sites below pass `key_present := true` and the default is dead. -/
def dictGet (key_present : Bool) (value : Option Int) (dflt : Int) : Option Int :=
  if key_present then value else some dflt

/-- `calculate_time_difference` (lines 47-58): `(end_time - start_time)` in
seconds; a `None` operand raises `TypeError`. -/
def calculate_time_difference (start_time end_time : Option Int) : Except String Int :=
  match start_time, end_time with
  | some s, some e => Except.ok (e - s)
  | _, _ => Except.error typeErrorSubMsg

/-- A record after the duration pass of lines 104-105: the dict now also
holds a `duration` value. -/
structure TimedRecord where
  start_time : Option Int
  end_time : Option Int
  duration : Int

/-- The duration loop of lines 104-105:
`times["duration"] = calculate_time_difference(times.get("start_time", datetime.min), times.get("end_time", datetime.min))`.
Both keys are always present in every record the loop ever creates, so
`dict.get` returns the stored value (possibly `None`) and the
`datetime.min` default never applies. -/
def addDurations (rt : List (String × ResourceTimes)) :
    Except String (List (String × TimedRecord)) :=
  rt.mapM fun p => do
    let d ← calculate_time_difference (dictGet true p.2.start_time DATETIME_MIN)
      (dictGet true p.2.end_time DATETIME_MIN)
    Except.ok (p.1, ⟨p.2.start_time, p.2.end_time, d⟩)

/-- The comparison behind
`sorted(resource_times.items(), key=lambda x: x[1]["duration"], reverse=True)`:
`a` may come before `b` when `a`'s duration is at least `b`'s. -/
def durationGE (a b : String × TimedRecord) : Prop :=
  b.2.duration ≤ a.2.duration

instance : DecidableRel durationGE :=
  fun a b => inferInstanceAs (Decidable (b.2.duration ≤ a.2.duration))

instance : IsTotal (String × TimedRecord) durationGE :=
  ⟨fun a b => le_total b.2.duration a.2.duration⟩

instance : IsTrans (String × TimedRecord) durationGE :=
  ⟨fun _ _ _ hab hbc => le_trans hbc hab⟩

/-- `find_resources_with_longest_time` (lines 61-109): build the mapping,
compute durations, sort by duration descending.  Python's `sorted` is a
stable sort; a stable sort for a total preorder is extensionally unique, so
it is modelled by the (stable) insertion sort under `durationGE`. -/
def find_resources_with_longest_time (events : List StackEvent) (operation : String) :
    Except String (List (String × TimedRecord)) := do
  let resource_times ← buildResourceTimes events operation
  let withDurations ← addDurations resource_times
  Except.ok (List.insertionSort durationGE withDurations)

/-- `analyze_events` (lines 112-127), modelled as the list of printed lines:
the invalid-operation message when the selector fails validation, otherwise
the report header followed by one line per sorted resource. -/
def analyze_events (events : List StackEvent) (operation : String) :
    Except String (List String) :=
  if !(operation == "create" || operation == "delete") then
    Except.ok [invalidOperationMsg]
  else do
    let sorted_resources ← find_resources_with_longest_time events operation
    Except.ok (("Resources with longest " ++ operation ++ " times:") ::
      sorted_resources.map (fun p => p.1 ++ ": " ++ toString p.2.duration ++ " seconds"))

/-- Python truthiness of the continuation token (`if next_token:` /
`if not next_token:`): `None` and the empty string are falsy. -/
def truthyToken : Option String → Bool
  | none => false
  | some s => !(s == "")

/-- The `while True` pagination loop of `get_all_events` (lines 24-44),
with explicit fuel for the unbounded loop.  `resp` models
`describe_stack_events`: it maps the optional `NextToken` carried by the
request to the returned page of events and the optional next token.  The
result also counts the requests issued. -/
def getAllEventsLoop (resp : Option String → List StackEvent × Option String) :
    Nat → Option String → List StackEvent → Nat → Option (List StackEvent × Nat)
  | 0, _, _, _ => none
  | fuel + 1, next_token, all_events, requests =>
    let request_token := if truthyToken next_token then next_token else none
    let page := resp request_token
    let all_events2 := all_events ++ page.1
    if truthyToken page.2 then
      getAllEventsLoop resp fuel page.2 all_events2 (requests + 1)
    else
      some (all_events2, requests + 1)

/-- `get_all_events` (lines 11-44): start with no token, no accumulated
events and zero requests. -/
def get_all_events (resp : Option String → List StackEvent × Option String) (fuel : Nat) :
    Option (List StackEvent × Nat) :=
  getAllEventsLoop resp fuel none [] 0

/-- A paginated source with three pages: the initial request answers with
`page1` and token `A`; the request carrying `A` answers with `page2` and
token `B`; the request carrying `B` answers with `page3` and no token. -/
def threePageSource (page1 page2 page3 : List StackEvent) :
    Option String → List StackEvent × Option String
  | none => (page1, some "A")
  | some t =>
    if t == "A" then (page2, some "B")
    else if t == "B" then (page3, none)
    else ([], none)

theorem except_ok_bind {ε α β : Type} (a : α) (f : α → Except ε β) :
    (Except.ok a >>= f) = f a := rfl

theorem except_error_bind {ε α β : Type} (e : ε) (f : α → Except ε β) :
    (Except.error e >>= f : Except ε β) = Except.error e := rfl

/-- C10: on the empty event sequence, `find_resources_with_longest_time`
returns the empty list and raises no error for every operation string,
including strings outside create/delete, because the operation-selector
validation (lines 77-84) executes only inside the per-event loop. -/
theorem claim_C10_empty_events_returns_empty (operation : String) :
    find_resources_with_longest_time [] operation = Except.ok [] := rfl

/-- C2: `analyze_events` validates the operation selector before touching
the events (lines 120-121), so for every event sequence — the empty one
included — a selector outside create/delete yields the Invalid Operation
message and no report. -/
theorem claim_C2_invalid_operation (events : List StackEvent) (operation : String)
    (h1 : operation ≠ "create") (h2 : operation ≠ "delete") :
    analyze_events events operation = Except.ok [invalidOperationMsg] := by
  simp [analyze_events, h1, h2]

/-- Witness for C2 at the concrete selector update and the empty sequence. -/
theorem claim_C2_invalid_operation_witness :
    ("update" ≠ "create" ∧ "update" ≠ "delete") ∧
    analyze_events [] "update" = Except.ok [invalidOperationMsg] :=
  ⟨⟨by decide, by decide⟩, claim_C2_invalid_operation [] "update" (by decide) (by decide)⟩

/-- C1 (code bug): with a complete event at T2 = 2 processed first and two
in-progress events then processed in order T1 = 1, T3 = 3, the recorded
start_time is 3, not the earliest timestamp 1: line 87's `or` short-circuits
on `resource_id in resource_times`, so an existing record's start_time is
overwritten unconditionally (last-write-wins), and the earliest-start
comparison the spec describes never runs. -/
theorem claim_C1_start_time_overwritten :
    find_resources_with_longest_time
      [⟨"R", CREATE_COMPLETE, 2⟩, ⟨"R", CREATE_IN_PROGRESS, 1⟩, ⟨"R", CREATE_IN_PROGRESS, 3⟩]
      "create"
      = Except.ok [("R", ⟨some 3, some 2, -1⟩)] := rfl

/-- C3 (code bug): a record whose only event is a complete one has
start_time bound to `None`; since the `start_time` key is present,
`times.get("start_time", datetime.min)` returns `None` (the `datetime.min`
default is dead) and the subtraction at line 105 raises `TypeError` instead
of producing the large numeric duration the spec describes. -/
theorem claim_C3_none_subtraction_raises :
    find_resources_with_longest_time [⟨"R", CREATE_COMPLETE, 5⟩] "create"
      = Except.error typeErrorSubMsg := rfl

/-- C4 (code bug): with the in-progress event at T1 = 1 processed before the
complete event at T2 = 2 (chronological order), the first event finds no
record for the resource, line 87 compares the timestamp against `None` and
raises `TypeError`; no duration T2 − T1 is ever reported. -/
theorem claim_C4_in_progress_first_raises :
    find_resources_with_longest_time
      [⟨"R", CREATE_IN_PROGRESS, 1⟩, ⟨"R", CREATE_COMPLETE, 2⟩] "create"
      = Except.error typeErrorLtMsg := rfl

/-- C5 (code bug): on the spec's end-to-end scenario (in-progress events
first, as in chronological order) the very first event is an in-progress
event for the unseen resource R1, so line 87 raises `TypeError` and the
expected output (R1, 5), (R2, 1) is never produced. -/
theorem claim_C5_scenario_raises :
    find_resources_with_longest_time
      [⟨"R1", CREATE_IN_PROGRESS, 0⟩, ⟨"R2", CREATE_IN_PROGRESS, 1⟩,
       ⟨"R1", CREATE_COMPLETE, 5⟩, ⟨"R2", CREATE_COMPLETE, 2⟩] "create"
      = Except.error typeErrorLtMsg := rfl

/-- C6 counterexample: when the in-progress event at T1 = 1 is processed
before the two complete events at T2 = 2 and T4 = 3, the analyzer raises
`TypeError` at the first event, so no end_time is recorded at all — the
claim's universal statement over arrival orders fails. -/
theorem claim_C6_counterexample :
    buildResourceTimes
      [⟨"R", CREATE_IN_PROGRESS, 1⟩, ⟨"R", CREATE_COMPLETE, 2⟩, ⟨"R", CREATE_COMPLETE, 3⟩]
      "create"
      = Except.error typeErrorLtMsg := rfl

/-- C6 (amended): for a resource with two complete events at T2 and T4
(T1 < T2 < T4) and one in-progress event at T1, in every arrival order whose
first processed event is a complete event, the recorded end_time is the
timestamp of whichever complete event was processed last in input order
(last-write-wins), not necessarily the later timestamp; the four conjuncts
cover the four such orders. -/
theorem claim_C6_last_write_wins (rid : String) (T1 T2 T4 : Int)
    (h12 : T1 < T2) (h24 : T2 < T4) :
    buildResourceTimes [⟨rid, CREATE_COMPLETE, T2⟩, ⟨rid, CREATE_COMPLETE, T4⟩,
        ⟨rid, CREATE_IN_PROGRESS, T1⟩] "create" = Except.ok [(rid, ⟨some T1, some T4⟩)]
    ∧ buildResourceTimes [⟨rid, CREATE_COMPLETE, T4⟩, ⟨rid, CREATE_COMPLETE, T2⟩,
        ⟨rid, CREATE_IN_PROGRESS, T1⟩] "create" = Except.ok [(rid, ⟨some T1, some T2⟩)]
    ∧ buildResourceTimes [⟨rid, CREATE_COMPLETE, T2⟩, ⟨rid, CREATE_IN_PROGRESS, T1⟩,
        ⟨rid, CREATE_COMPLETE, T4⟩] "create" = Except.ok [(rid, ⟨some T1, some T4⟩)]
    ∧ buildResourceTimes [⟨rid, CREATE_COMPLETE, T4⟩, ⟨rid, CREATE_IN_PROGRESS, T1⟩,
        ⟨rid, CREATE_COMPLETE, T2⟩] "create" = Except.ok [(rid, ⟨some T1, some T2⟩)] := by
  refine ⟨?_, ?_, ?_, ?_⟩ <;>
    simp [buildResourceTimes, processEvent, inProgressCondition, containsKey, lookupTimes,
      startTimeOfGet, setStart, setEnd, pyLt, CREATE_IN_PROGRESS, CREATE_COMPLETE,
      List.foldlM_cons, List.foldlM_nil, except_ok_bind, except_error_bind]

/-- Witness for C6 (amended) at rid = R, T1 = 1, T2 = 2, T4 = 3. -/
theorem claim_C6_last_write_wins_witness :
    ((1 : Int) < 2 ∧ (2 : Int) < 3) ∧
    buildResourceTimes [⟨"R", CREATE_COMPLETE, 2⟩, ⟨"R", CREATE_COMPLETE, 3⟩,
        ⟨"R", CREATE_IN_PROGRESS, 1⟩] "create" = Except.ok [("R", ⟨some 1, some 3⟩)] :=
  ⟨⟨by decide, by decide⟩, (claim_C6_last_write_wins "R" 1 2 3 (by decide) (by decide)).1⟩

/-- C7: whenever `find_resources_with_longest_time` returns a list at all,
that list is sorted by duration in descending order — each pair's duration
is at least the next pair's duration (line 107's `sorted(..., reverse=True)`). -/
theorem claim_C7_sorted_descending (events : List StackEvent) (operation : String)
    (l : List (String × TimedRecord))
    (h : find_resources_with_longest_time events operation = Except.ok l) :
    l.Pairwise (fun a b => b.2.duration ≤ a.2.duration) := by
  unfold find_resources_with_longest_time at h
  rcases hb : buildResourceTimes events operation with e | rt <;> rw [hb] at h
  · simp [except_error_bind] at h
  rcases hd : addDurations rt with e | wd <;> rw [except_ok_bind, hd] at h
  · simp [except_error_bind] at h
  rw [except_ok_bind] at h
  have hl : l = List.insertionSort durationGE wd := (Except.ok.inj h).symm
  subst hl
  exact (List.sorted_insertionSort durationGE wd).imp (fun hab => hab)

/-- Witness for C7 on a concrete run with two resources (durations 5 and 1). -/
theorem claim_C7_sorted_descending_witness :
    find_resources_with_longest_time
      [⟨"R1", CREATE_COMPLETE, 5⟩, ⟨"R1", CREATE_IN_PROGRESS, 0⟩,
       ⟨"R2", CREATE_COMPLETE, 2⟩, ⟨"R2", CREATE_IN_PROGRESS, 1⟩] "create"
      = Except.ok [("R1", ⟨some 0, some 5, 5⟩), ("R2", ⟨some 1, some 2, 1⟩)]
    ∧ List.Pairwise (fun a b => b.2.duration ≤ a.2.duration)
      ([("R1", ⟨some 0, some 5, 5⟩), ("R2", ⟨some 1, some 2, 1⟩)] :
        List (String × TimedRecord)) :=
  ⟨rfl, claim_C7_sorted_descending
    [⟨"R1", CREATE_COMPLETE, 5⟩, ⟨"R1", CREATE_IN_PROGRESS, 0⟩,
     ⟨"R2", CREATE_COMPLETE, 2⟩, ⟨"R2", CREATE_IN_PROGRESS, 1⟩] "create" _ rfl⟩

/-- C8: against a three-page source (initial request answers page1 and
token A, the request carrying A answers page2 and token B, the request
carrying B answers page3 and no token), the fetcher returns
page1 ++ page2 ++ page3 in order and issues exactly three requests,
for every fuel bound of at least three iterations. -/
theorem claim_C8_pagination (page1 page2 page3 : List StackEvent) (extra : Nat) :
    get_all_events (threePageSource page1 page2 page3) (extra + 3)
      = some (page1 ++ page2 ++ page3, 3) := by
  have h : get_all_events (threePageSource page1 page2 page3) (extra + 3)
      = some ((page1 ++ page2) ++ page3, 3) := rfl
  rw [h, List.append_assoc]

/-- C9: processing an in-progress event of the selected operation for a
resource_id that has no record in the mapping at that moment raises
`TypeError` instead of creating a fresh record: line 87's condition then
compares the event's timestamp against `None` (the start_time looked up
from the empty-dict default), and the error propagates out of
`find_resources_with_longest_time`. -/
theorem claim_C9_typeerror_on_unseen_resource (pre post : List StackEvent)
    (operation rid : String) (ts : Int) (st : List (String × ResourceTimes))
    (hop : operation = "create" ∨ operation = "delete")
    (hpre : List.foldlM (processEvent operation) [] pre = Except.ok st)
    (habs : containsKey st rid = false) :
    find_resources_with_longest_time
      (pre ++ { logicalResourceId := rid,
                resourceStatus := if operation == "create" then CREATE_IN_PROGRESS
                  else DELETE_IN_PROGRESS,
                timestamp := ts } :: post) operation
      = Except.error typeErrorLtMsg := by
  have hlook : lookupTimes st rid = none := by
    unfold containsKey at habs
    cases h : lookupTimes st rid with
    | none => rfl
    | some v => rw [h] at habs; simp at habs
  have hstep : processEvent operation st
      { logicalResourceId := rid,
        resourceStatus := if operation == "create" then CREATE_IN_PROGRESS
          else DELETE_IN_PROGRESS,
        timestamp := ts } = Except.error typeErrorLtMsg := by
    rcases hop with h | h <;> subst h <;>
      simp [processEvent, inProgressCondition, containsKey, hlook, startTimeOfGet, pyLt,
        CREATE_IN_PROGRESS, DELETE_IN_PROGRESS, except_ok_bind, except_error_bind]
  unfold find_resources_with_longest_time buildResourceTimes
  rw [List.foldlM_append, hpre, except_ok_bind, List.foldlM_cons, hstep,
    except_error_bind, except_error_bind]

/-- Witness for C9: a single in-progress event for an unseen resource, with
empty prefix and suffix, makes the analyzer raise the TypeError. -/
theorem claim_C9_typeerror_on_unseen_resource_witness :
    (("create" = "create" ∨ ("create" : String) = "delete")
      ∧ List.foldlM (processEvent "create") [] ([] : List StackEvent)
          = Except.ok ([] : List (String × ResourceTimes))
      ∧ containsKey [] "R" = false) ∧
    find_resources_with_longest_time
      ([] ++ { logicalResourceId := "R", resourceStatus := CREATE_IN_PROGRESS,
               timestamp := (0 : Int) } :: []) "create"
      = Except.error typeErrorLtMsg :=
  ⟨⟨Or.inl rfl, rfl, rfl⟩,
    claim_C9_typeerror_on_unseen_resource [] [] "create" "R" 0 [] (Or.inl rfl) rfl rfl⟩
